import Mathlib

/-!
# Verification of the api-spec-converter front-end orchestration

A shallow embedding of `src/web-2/src/App.tsx`. The repository holds two
near-duplicate React front-ends (a plain-CSS variant and a styled variant)
around the external `amf-client-js` library. The conversion handler
`handleConvert` is the same linear chain in both variants:

  empty-input guard → set loading / clear error / clear output →
  select clients → parse (by URL or by content) → abort on parse
  diagnostics → transform (Compatibility pipeline) → log transform
  diagnostics → render with a format-dependent media type → publish output;
  any thrown exception is caught at the top and reported, and `loading`
  is reset in a `finally`.

The external library is opaque: we model it as an oracle (`LibBehavior`)
giving, for each call, either a result bundle or a thrown exception, and
we prove properties of the handler for every oracle. The handler is
modelled on the styled variant's four-dialect `Format`; the plain-CSS
variant differs only in its format enumeration (three dialects, captured
separately below as `PlainFormat`) and an extra `console.error` log in the
catch block.
-/

/-- The styled variant's `Format` union type
(`'RAML 0.8' | 'RAML 1.0' | 'OAS 2.0' | 'OAS 3.0'`). -/
inductive Format where
  | RAML08
  | RAML10
  | OAS20
  | OAS30
deriving DecidableEq, Repr

/-- The string literal each `Format` member stands for. -/
def Format.name : Format → String
  | .RAML08 => "RAML 0.8"
  | .RAML10 => "RAML 1.0"
  | .OAS20 => "OAS 2.0"
  | .OAS30 => "OAS 3.0"

/-- All members of the styled variant's `Format` union. -/
def Format.all : List Format := [.RAML08, .RAML10, .OAS20, .OAS30]

/-- The plain-CSS variant's `Format` union type
(`'RAML 1.0' | 'OAS 2.0' | 'OAS 3.0'`). -/
inductive PlainFormat where
  | RAML10
  | OAS20
  | OAS30
deriving DecidableEq, Repr

/-- The string literal each `PlainFormat` member stands for. -/
def PlainFormat.name : PlainFormat → String
  | .RAML10 => "RAML 1.0"
  | .OAS20 => "OAS 2.0"
  | .OAS30 => "OAS 3.0"

/-- All members of the plain-CSS variant's `Format` union. -/
def PlainFormat.all : List PlainFormat := [.RAML10, .OAS20, .OAS30]

/-- The `value` attributes of the `<option>` elements of the plain-CSS
variant's input-format `<select>` (App.tsx lines 106-108). -/
def plainInputFormatOptions : List String :=
  ["RAML 1.0", "OAS 2.0", "OAS 3.0"]

/-- The `value` attributes of the `<option>` elements of the plain-CSS
variant's output-format `<select>` (App.tsx lines 117-119). -/
def plainOutputFormatOptions : List String :=
  ["RAML 1.0", "OAS 2.0", "OAS 3.0"]

/-- The `value` attributes of the `<option>` elements of the styled
variant's input-format `<select>`. -/
def styledInputFormatOptions : List String :=
  ["RAML 0.8", "RAML 1.0", "OAS 2.0", "OAS 3.0"]

/-- The `value` attributes of the `<option>` elements of the styled
variant's output-format `<select>`. -/
def styledOutputFormatOptions : List String :=
  ["RAML 0.8", "RAML 1.0", "OAS 2.0", "OAS 3.0"]

/-- `type InputMode = 'url' | 'content'`. -/
inductive InputMode where
  | url
  | content
deriving DecidableEq, Repr

/-- A JavaScript value thrown inside the `try` block: either an `Error`
object carrying a `message`, or any other value with its string form. -/
inductive ExnVal where
  | errorObj (message : String)
  | nonError (str : String)
deriving DecidableEq, Repr

/-- `err instanceof Error ? err.message : String(err)`. -/
def ExnVal.display : ExnVal → String
  | .errorObj m => m
  | .nonError s => s

/-- One diagnostic of an AMF result bundle; the handler only reads its
`message` field. -/
structure AMFDiagnostic where
  message : String
deriving DecidableEq, Repr

/-- The shape of the library's parse/transform result bundles
(`AMFDocumentResult` / `AMFResult`): a base unit plus a diagnostic list.
Base units are opaque to the handler, modelled as tokens. -/
structure AMFResultM where
  baseUnit : Nat
  results : List AMFDiagnostic
deriving DecidableEq, Repr

/-- The transformation pipeline identifiers of the library; the handler
always passes `PipelineId.Compatibility`. -/
inductive PipelineId where
  | Default
  | Editing
  | Compatibility
deriving DecidableEq, Repr

/-- A library call either returns a value or throws. -/
abbrev LibCall (α : Type) := Except ExnVal α

/-- An oracle fixing the outcome of every `amf-client-js` call during one
conversion attempt. Clients are identified by the format they were
selected for; `getClient` models `getClient`'s client construction
(which may throw inside the `try`). -/
structure LibBehavior where
  getClient : Format → LibCall Unit
  parseDocument : Format → String → LibCall AMFResultM
  parseContent : Format → String → String → LibCall AMFResultM
  transform : Format → Nat → PipelineId → LibCall AMFResultM
  render : Format → Nat → String → LibCall String

/-- The component state read and written by `handleConvert`. -/
structure AppState where
  inputFormat : Format
  outputFormat : Format
  inputMode : InputMode
  input : String
  output : String
  loading : Bool
  error : String
deriving DecidableEq, Repr

/-- Instrumentation of one `handleConvert` invocation: which library calls
were made, with which media types, whether `setLoading(true)` ran, and
the `console.warn` lines (tag, joined messages). -/
structure Trace where
  calledParse : Bool
  calledTransform : Bool
  calledRender : Bool
  parseMediaType : Option String
  renderMediaType : Option String
  loadingSet : Bool
  consoleWarn : List (String × String)
deriving DecidableEq, Repr

/-- The trace of an invocation stopped by the empty-input guard. -/
def Trace.nil : Trace :=
  { calledParse := false, calledTransform := false, calledRender := false,
    parseMediaType := none, renderMediaType := none,
    loadingSet := false, consoleWarn := [] }

/-- The media type the handler declares when parsing: `'application/yaml'`
for content mode, none for URL mode (where `parseDocument` takes no media
type). -/
def declaredParseMediaType : InputMode → Option String
  | .url => none
  | .content => some "application/yaml"

/-- Trace after reaching the parse call. -/
def Trace.parsed (m : InputMode) : Trace :=
  { Trace.nil with
    loadingSet := true, calledParse := true,
    parseMediaType := declaredParseMediaType m }

/-- Trace after reaching the transform call. -/
def Trace.transformed (m : InputMode) : Trace :=
  { Trace.parsed m with calledTransform := true }

/-- JavaScript `String.prototype.startsWith`: whether `p` is a prefix of
`s`. Defined over the character lists so that concrete instances evaluate
by kernel reduction. -/
def jsStartsWith (s p : String) : Bool :=
  p.data.isPrefixOf s.data

/-- `const mimeType = outputFormat.startsWith('RAML') ? 'application/yaml'
: 'application/json'`. -/
def mimeFor (f : Format) : String :=
  if jsStartsWith f.name "RAML" then "application/yaml" else "application/json"

/-- The `console.warn` lines produced after the transform step:
`console.warn('Transform warnings:', warnings)` exactly when the
transform result's diagnostic list is non-empty. -/
def transformWarnLines (tr : AMFResultM) : List (String × String) :=
  if tr.results.length > 0 then
    [("Transform warnings:", String.intercalate "\n" (tr.results.map (·.message)))]
  else []

/-- Trace after reaching the render call. -/
def Trace.renderedTrace (m : InputMode) (outFmt : Format) (tr : AMFResultM) : Trace :=
  { Trace.transformed m with
    calledRender := true,
    renderMediaType := some (mimeFor outFmt),
    consoleWarn := transformWarnLines tr }

/-- JavaScript `String.prototype.trim`: strip leading and trailing
whitespace. Defined over the character list so that concrete instances
evaluate by kernel reduction. The handler only ever tests the result for
truthiness, i.e. compares it with the empty string. -/
def jsTrim (s : String) : String :=
  String.mk (((s.data.dropWhile Char.isWhitespace).reverse.dropWhile Char.isWhitespace).reverse)

/-- `setError('Conversion error: ...')` of the catch block. -/
def convErrMsg (e : ExnVal) : String :=
  "Conversion error: " ++ e.display

/-- `setError('Parsing errors:\n...')` of the parse-diagnostics branch. -/
def parseErrMsg (ds : List AMFDiagnostic) : String :=
  "Parsing errors:\n" ++ String.intercalate "\n" (ds.map (·.message))

/-- The state left by the catch block (plus the `finally`): output was
cleared at the start of the attempt, the error message is set, loading is
reset. -/
def catchState (s : AppState) (e : ExnVal) : AppState :=
  { s with output := "", loading := false, error := convErrMsg e }

/-- The parse step: `parseDocument(input)` in URL mode,
`parseContent(input, 'application/yaml')` in content mode, on the client
selected for the input format. -/
def parseStep (lib : LibBehavior) (s : AppState) : LibCall AMFResultM :=
  match s.inputMode with
  | .url => lib.parseDocument s.inputFormat s.input
  | .content => lib.parseContent s.inputFormat s.input "application/yaml"

/-- `handleConvert` of App.tsx, as a function from the oracle and the
pre-invocation state to the post-invocation state and a trace.

  - `if (!input.trim()) { setError('Please provide input'); return }`
  - `setLoading(true); setError(''); setOutput('')`
  - `try`: select input and output clients, parse, abort with
    `Parsing errors:` on a non-empty parse diagnostic list, transform with
    `PipelineId.Compatibility`, `console.warn` on a non-empty transform
    diagnostic list, render with `mimeFor outputFormat`, `setOutput`
  - `catch`: `setError('Conversion error: ...')`
  - `finally`: `setLoading(false)`

The model is total, reflecting that the `catch` block receives every
exception thrown inside the `try`. -/
def handleConvert (lib : LibBehavior) (s : AppState) : AppState × Trace :=
  if jsTrim s.input = "" then
    ({ s with error := "Please provide input" }, Trace.nil)
  else
    match lib.getClient s.inputFormat with
    | .error e => (catchState s e, { Trace.nil with loadingSet := true })
    | .ok _ =>
      match lib.getClient s.outputFormat with
      | .error e => (catchState s e, { Trace.nil with loadingSet := true })
      | .ok _ =>
        match parseStep lib s with
        | .error e => (catchState s e, Trace.parsed s.inputMode)
        | .ok pr =>
          if pr.results.length > 0 then
            ({ s with
               output := "", loading := false,
               error := parseErrMsg pr.results }, Trace.parsed s.inputMode)
          else
            match lib.transform s.outputFormat pr.baseUnit PipelineId.Compatibility with
            | .error e => (catchState s e, Trace.transformed s.inputMode)
            | .ok tr =>
              match lib.render s.outputFormat tr.baseUnit (mimeFor s.outputFormat) with
              | .error e =>
                (catchState s e, Trace.renderedTrace s.inputMode s.outputFormat tr)
              | .ok rendered =>
                ({ s with output := rendered, loading := false, error := "" },
                 Trace.renderedTrace s.inputMode s.outputFormat tr)

/-- The disabled condition of the convert button:
`disabled={loading || !input.trim()}` (identical in both variants). -/
def convertButtonDisabled (s : AppState) : Bool :=
  s.loading || (jsTrim s.input == "")

/-- The first exception thrown during an attempt that passed the guard,
following the `try` block's call order; `none` when no call throws before
the chain ends (including the parse-diagnostics early return). -/
def firstThrow (lib : LibBehavior) (s : AppState) : Option ExnVal :=
  match lib.getClient s.inputFormat with
  | .error e => some e
  | .ok _ =>
    match lib.getClient s.outputFormat with
    | .error e => some e
    | .ok _ =>
      match parseStep lib s with
      | .error e => some e
      | .ok pr =>
        if pr.results.length > 0 then none
        else
          match lib.transform s.outputFormat pr.baseUnit PipelineId.Compatibility with
          | .error e => some e
          | .ok tr =>
            match lib.render s.outputFormat tr.baseUnit (mimeFor s.outputFormat) with
            | .error e => some e
            | .ok _ => none

/-! ## Concrete fixtures used by witnesses and counterexamples -/

/-- A diagnostic list used as a concrete parse failure. -/
def sampleDiags : List AMFDiagnostic :=
  [⟨"Unresolved reference"⟩, ⟨"Missing required field"⟩]

/-- An oracle in which every call succeeds with no diagnostics. -/
def okLib : LibBehavior where
  getClient := fun _ => .ok ()
  parseDocument := fun _ _ => .ok ⟨0, []⟩
  parseContent := fun _ _ _ => .ok ⟨0, []⟩
  transform := fun _ _ _ => .ok ⟨1, []⟩
  render := fun _ _ _ => .ok "converted document"

/-- An oracle in which parsing succeeds but yields diagnostics. -/
def diagLib : LibBehavior where
  getClient := fun _ => .ok ()
  parseDocument := fun _ _ => .ok ⟨0, sampleDiags⟩
  parseContent := fun _ _ _ => .ok ⟨0, sampleDiags⟩
  transform := fun _ _ _ => .ok ⟨1, []⟩
  render := fun _ _ _ => .ok "converted document"

/-- An oracle in which the transform step yields (non-fatal) diagnostics. -/
def warnLib : LibBehavior where
  getClient := fun _ => .ok ()
  parseDocument := fun _ _ => .ok ⟨0, []⟩
  parseContent := fun _ _ _ => .ok ⟨0, []⟩
  transform := fun _ _ _ => .ok ⟨1, [⟨"Dropped unsupported facet"⟩]⟩
  render := fun _ _ _ => .ok "converted document"

/-- An oracle in which the parse call throws an `Error`. -/
def throwLib : LibBehavior where
  getClient := fun _ => .ok ()
  parseDocument := fun _ _ => .error (.errorObj "network unreachable")
  parseContent := fun _ _ _ => .error (.errorObj "network unreachable")
  transform := fun _ _ _ => .ok ⟨1, []⟩
  render := fun _ _ _ => .ok "converted document"

/-- A pre-invocation state in URL mode with a non-blank input. -/
def stUrl : AppState where
  inputFormat := .OAS20
  outputFormat := .OAS30
  inputMode := .url
  input := "https://example.com/api.yaml"
  output := ""
  loading := false
  error := ""

/-- A pre-invocation state in content mode with a non-blank input. -/
def stContent : AppState where
  inputFormat := .OAS20
  outputFormat := .RAML10
  inputMode := .content
  input := "swagger: 2.0"
  output := ""
  loading := false
  error := ""

/-- A pre-invocation state with blank input but a non-empty prior output,
as left by a successful conversion followed by clearing the input field. -/
def stStale : AppState where
  inputFormat := .OAS20
  outputFormat := .OAS30
  inputMode := .url
  input := "   "
  output := "previously converted document"
  loading := false
  error := ""

/-! ## Helper lemmas -/

/-- Branch analysis of `handleConvert` past the guard: every failure path
sets the error on the output cleared at the start of the attempt, and the
success path publishes the output with the error cleared, so one of the
two fields is empty. -/
theorem handleConvert_exclusive_of_guard (lib : LibBehavior) (s : AppState)
    (hg : jsTrim s.input ≠ "") :
    (handleConvert lib s).1.output = "" ∨ (handleConvert lib s).1.error = "" := by
  rcases h1 : lib.getClient s.inputFormat with e1 | u1
  · simp [handleConvert, hg, h1, catchState]
  · rcases h2 : lib.getClient s.outputFormat with e2 | u2
    · simp [handleConvert, hg, h1, h2, catchState]
    · rcases hp : parseStep lib s with ep | pr
      · simp [handleConvert, hg, h1, h2, hp, catchState]
      · by_cases hd : pr.results.length > 0
        · simp [handleConvert, hg, h1, h2, hp, hd]
        · rcases ht : lib.transform s.outputFormat pr.baseUnit PipelineId.Compatibility with et | tr
          · simp [handleConvert, hg, h1, h2, hp, hd, ht, catchState]
          · rcases hr : lib.render s.outputFormat tr.baseUnit (mimeFor s.outputFormat) with er | rv
            · simp [handleConvert, hg, h1, h2, hp, hd, ht, hr, catchState]
            · simp [handleConvert, hg, h1, h2, hp, hd, ht, hr]

/-! ## Claims -/

/-- Claim C8: for every input whose trimmed content is empty, invoking
`handleConvert` never triggers a conversion attempt: no parse, transform,
or render call is made, the invocation returns right after the guard
having only set the error message, loading is never set to true, and the
output and loading fields are left unchanged. -/
theorem handleConvert_empty_input_guard (lib : LibBehavior) (s : AppState)
    (hg : jsTrim s.input = "") :
    handleConvert lib s = ({ s with error := "Please provide input" }, Trace.nil) ∧
    (handleConvert lib s).2.calledParse = false ∧
    (handleConvert lib s).2.calledTransform = false ∧
    (handleConvert lib s).2.calledRender = false ∧
    (handleConvert lib s).2.loadingSet = false ∧
    (handleConvert lib s).1.output = s.output ∧
    (handleConvert lib s).1.loading = s.loading := by
  simp [handleConvert, hg, Trace.nil]

/-- Witness for C8 at a concrete blank-input state and oracle. -/
theorem handleConvert_empty_input_guard_spot :
    handleConvert okLib stStale = ({ stStale with error := "Please provide input" }, Trace.nil) ∧
    (handleConvert okLib stStale).2.calledParse = false ∧
    (handleConvert okLib stStale).2.calledTransform = false ∧
    (handleConvert okLib stStale).2.calledRender = false ∧
    (handleConvert okLib stStale).2.loadingSet = false ∧
    (handleConvert okLib stStale).1.output = stStale.output ∧
    (handleConvert okLib stStale).1.loading = stStale.loading :=
  handleConvert_empty_input_guard okLib stStale (by decide)

/-- Claim C7: the convert button is disabled exactly when a conversion is
in flight or the trimmed input is empty (`disabled={loading ||
!input.trim()}`, identical in both variants). -/
theorem convertButtonDisabled_iff (s : AppState) :
    convertButtonDisabled s = true ↔ (s.loading = true ∨ jsTrim s.input = "") := by
  simp [convertButtonDisabled, Bool.or_eq_true]

/-- Counterexample to claim C3 as stated: the plain-CSS variant's pickers
do not offer the four dialect options; RAML 0.8 is absent there. -/
theorem plain_variant_not_four_dialects :
    ¬(plainInputFormatOptions = ["RAML 0.8", "RAML 1.0", "OAS 2.0", "OAS 3.0"] ∧
      plainOutputFormatOptions = ["RAML 0.8", "RAML 1.0", "OAS 2.0", "OAS 3.0"] ∧
      styledInputFormatOptions = ["RAML 0.8", "RAML 1.0", "OAS 2.0", "OAS 3.0"] ∧
      styledOutputFormatOptions = ["RAML 0.8", "RAML 1.0", "OAS 2.0", "OAS 3.0"]) := by
  decide

/-- Claim C3 amended: the styled variant's pickers each offer exactly the
four dialects RAML 0.8, RAML 1.0, OAS 2.0 and OAS 3.0, while the plain-CSS
variant's pickers each offer exactly the three dialects RAML 1.0, OAS 2.0
and OAS 3.0; the picker options coincide with the respective variant's
`Format` union, which enumerates four respectively three dialects. -/
theorem format_options_by_variant :
    styledInputFormatOptions = ["RAML 0.8", "RAML 1.0", "OAS 2.0", "OAS 3.0"] ∧
    styledOutputFormatOptions = styledInputFormatOptions ∧
    plainInputFormatOptions = ["RAML 1.0", "OAS 2.0", "OAS 3.0"] ∧
    plainOutputFormatOptions = plainInputFormatOptions ∧
    styledInputFormatOptions = Format.all.map Format.name ∧
    plainInputFormatOptions = PlainFormat.all.map PlainFormat.name ∧
    styledInputFormatOptions.length = 4 ∧
    plainInputFormatOptions.length = 3 ∧
    (∀ f : Format, f ∈ Format.all) ∧
    (∀ p : PlainFormat, p ∈ PlainFormat.all) := by
  refine ⟨by decide, by decide, by decide, by decide, by decide,
    by decide, by decide, by decide, ?_, ?_⟩
  · intro f; cases f <;> simp [Format.all]
  · intro p; cases p <;> simp [PlainFormat.all]

/-- Counterexample to claim C2 as stated: the empty-input guard sets the
error message without clearing a prior output, so after an invocation on a
state holding stale output and blank input, output and error are both
non-empty. -/
theorem guard_leaves_stale_output :
    (handleConvert okLib stStale).1.output ≠ "" ∧
    (handleConvert okLib stStale).1.error ≠ "" := by
  decide

/-- Claim C2 amended: after any invocation of `handleConvert` that passes
the empty-input guard, at most one of output and error is non-empty; the
guard branch leaves the prior output untouched while setting the error, so
mutual exclusivity there additionally needs the prior output to be
empty. -/
theorem handleConvert_output_error_mutex (lib : LibBehavior) (s : AppState)
    (h : jsTrim s.input ≠ "" ∨ s.output = "") :
    ¬((handleConvert lib s).1.output ≠ "" ∧ (handleConvert lib s).1.error ≠ "") := by
  by_cases hg : jsTrim s.input = ""
  · have hout : (handleConvert lib s).1.output = s.output := by
      simp [handleConvert, hg]
    have hso : s.output = "" := by
      rcases h with h | h
      · exact absurd hg h
      · exact h
    rintro ⟨ho, _⟩
    exact ho (hout.trans hso)
  · rintro ⟨ho, he⟩
    rcases handleConvert_exclusive_of_guard lib s hg with h' | h'
    · exact ho h'
    · exact he h'

/-- Witness for the amended C2 at a concrete state and oracle. -/
theorem handleConvert_output_error_mutex_spot :
    ¬((handleConvert okLib stUrl).1.output ≠ "" ∧
      (handleConvert okLib stUrl).1.error ≠ "") :=
  handleConvert_output_error_mutex okLib stUrl (Or.inl (by decide))

/-- Claim C1: whenever the parse step returns a non-empty diagnostic list,
`handleConvert` aborts the attempt before transforming or rendering: the
output is left empty for the attempt and the error is the diagnostic
messages joined by newlines behind the `Parsing errors:` prefix. -/
theorem handleConvert_parse_diagnostics_abort
    (lib : LibBehavior) (s : AppState) (pr : AMFResultM)
    (hg : jsTrim s.input ≠ "")
    (h1 : lib.getClient s.inputFormat = .ok ())
    (h2 : lib.getClient s.outputFormat = .ok ())
    (hp : parseStep lib s = .ok pr)
    (hd : pr.results ≠ []) :
    (handleConvert lib s).1.output = "" ∧
    (handleConvert lib s).1.error =
      "Parsing errors:\n" ++ String.intercalate "\n" (pr.results.map (fun r => r.message)) ∧
    (handleConvert lib s).1.loading = false ∧
    (handleConvert lib s).2.calledTransform = false ∧
    (handleConvert lib s).2.calledRender = false := by
  have hlen : pr.results.length > 0 := List.length_pos.mpr hd
  simp [handleConvert, hg, h1, h2, hp, hlen, parseErrMsg,
    Trace.parsed, Trace.nil]

/-- Witness for C1 at a concrete oracle whose parse yields diagnostics. -/
theorem handleConvert_parse_diagnostics_abort_spot :
    (handleConvert diagLib stUrl).1.output = "" ∧
    (handleConvert diagLib stUrl).1.error =
      "Parsing errors:\n" ++ String.intercalate "\n" (sampleDiags.map (fun r => r.message)) ∧
    (handleConvert diagLib stUrl).1.loading = false ∧
    (handleConvert diagLib stUrl).2.calledTransform = false ∧
    (handleConvert diagLib stUrl).2.calledRender = false :=
  handleConvert_parse_diagnostics_abort diagLib stUrl ⟨0, sampleDiags⟩
    (by decide) rfl rfl rfl (by decide)

/-- Claim C9: every attempt that parses with no diagnostics and completes
the transform and render calls without an exception clears any prior error
and publishes the rendered text as the output. -/
theorem handleConvert_success_publishes_output
    (lib : LibBehavior) (s : AppState) (pr tr : AMFResultM) (rendered : String)
    (hg : jsTrim s.input ≠ "")
    (h1 : lib.getClient s.inputFormat = .ok ())
    (h2 : lib.getClient s.outputFormat = .ok ())
    (hp : parseStep lib s = .ok pr)
    (hd : pr.results = [])
    (ht : lib.transform s.outputFormat pr.baseUnit PipelineId.Compatibility = .ok tr)
    (hr : lib.render s.outputFormat tr.baseUnit (mimeFor s.outputFormat) = .ok rendered) :
    (handleConvert lib s).1.error = "" ∧
    (handleConvert lib s).1.output = rendered ∧
    (handleConvert lib s).1.loading = false := by
  simp [handleConvert, hg, h1, h2, hp, hd, ht, hr]

/-- Witness for C9 at a concrete all-success oracle. -/
theorem handleConvert_success_publishes_output_spot :
    (handleConvert okLib stUrl).1.error = "" ∧
    (handleConvert okLib stUrl).1.output = "converted document" ∧
    (handleConvert okLib stUrl).1.loading = false :=
  handleConvert_success_publishes_output okLib stUrl ⟨0, []⟩ ⟨1, []⟩
    "converted document" (by decide) rfl rfl rfl rfl rfl rfl

/-- Claim C4: a non-empty diagnostic list from the transform step does not
abort the attempt: the joined diagnostics are logged through
`console.warn` and the handler still calls render; whenever that render
call returns, its result is published as the output. -/
theorem handleConvert_transform_diagnostics_nonfatal
    (lib : LibBehavior) (s : AppState) (pr tr : AMFResultM)
    (hg : jsTrim s.input ≠ "")
    (h1 : lib.getClient s.inputFormat = .ok ())
    (h2 : lib.getClient s.outputFormat = .ok ())
    (hp : parseStep lib s = .ok pr)
    (hd : pr.results = [])
    (ht : lib.transform s.outputFormat pr.baseUnit PipelineId.Compatibility = .ok tr)
    (hw : tr.results ≠ []) :
    (handleConvert lib s).2.calledRender = true ∧
    (handleConvert lib s).2.consoleWarn =
      [("Transform warnings:",
        String.intercalate "\n" (tr.results.map (fun r => r.message)))] ∧
    (∀ rendered, lib.render s.outputFormat tr.baseUnit (mimeFor s.outputFormat) = .ok rendered →
      (handleConvert lib s).1.output = rendered) := by
  have hlen : tr.results.length > 0 := List.length_pos.mpr hw
  refine ⟨?_, ?_, ?_⟩
  · rcases hr : lib.render s.outputFormat tr.baseUnit (mimeFor s.outputFormat) with er | rv <;>
      simp [handleConvert, hg, h1, h2, hp, hd, ht, hr,
        Trace.renderedTrace, Trace.transformed, Trace.parsed, Trace.nil]
  · rcases hr : lib.render s.outputFormat tr.baseUnit (mimeFor s.outputFormat) with er | rv <;>
      simp [handleConvert, hg, h1, h2, hp, hd, ht, hr,
        Trace.renderedTrace, Trace.transformed, Trace.parsed, Trace.nil,
        transformWarnLines, hlen]
  · intro rendered hr
    simp [handleConvert, hg, h1, h2, hp, hd, ht, hr]

/-- Witness for C4 at a concrete oracle whose transform yields a
diagnostic. -/
theorem handleConvert_transform_diagnostics_nonfatal_spot :
    (handleConvert warnLib stContent).2.calledRender = true ∧
    (handleConvert warnLib stContent).2.consoleWarn =
      [("Transform warnings:", "Dropped unsupported facet")] ∧
    (handleConvert warnLib stContent).1.output = "converted document" := by
  refine ⟨?_, ?_, ?_⟩
  · exact (handleConvert_transform_diagnostics_nonfatal warnLib stContent
      ⟨0, []⟩ ⟨1, [⟨"Dropped unsupported facet"⟩]⟩
      (by decide) rfl rfl rfl rfl rfl (by decide)).1
  · exact (handleConvert_transform_diagnostics_nonfatal warnLib stContent
      ⟨0, []⟩ ⟨1, [⟨"Dropped unsupported facet"⟩]⟩
      (by decide) rfl rfl rfl rfl rfl (by decide)).2.1
  · exact (handleConvert_transform_diagnostics_nonfatal warnLib stContent
      ⟨0, []⟩ ⟨1, [⟨"Dropped unsupported facet"⟩]⟩
      (by decide) rfl rfl rfl rfl rfl (by decide)).2.2 "converted document" rfl

/-- Claim C6: every attempt that reaches the render step renders with
media type `application/yaml` exactly when the selected output format is a
RAML dialect and `application/json` exactly when it is an OAS dialect. -/
theorem handleConvert_render_media_type
    (lib : LibBehavior) (s : AppState) (pr tr : AMFResultM)
    (hg : jsTrim s.input ≠ "")
    (h1 : lib.getClient s.inputFormat = .ok ())
    (h2 : lib.getClient s.outputFormat = .ok ())
    (hp : parseStep lib s = .ok pr)
    (hd : pr.results = [])
    (ht : lib.transform s.outputFormat pr.baseUnit PipelineId.Compatibility = .ok tr) :
    (handleConvert lib s).2.renderMediaType = some (mimeFor s.outputFormat) ∧
    (mimeFor s.outputFormat = "application/yaml" ↔
      (s.outputFormat = Format.RAML08 ∨ s.outputFormat = Format.RAML10)) ∧
    (mimeFor s.outputFormat = "application/json" ↔
      (s.outputFormat = Format.OAS20 ∨ s.outputFormat = Format.OAS30)) := by
  refine ⟨?_, ?_, ?_⟩
  · rcases hr : lib.render s.outputFormat tr.baseUnit (mimeFor s.outputFormat) with er | rv <;>
      simp [handleConvert, hg, h1, h2, hp, hd, ht, hr,
        Trace.renderedTrace, Trace.transformed, Trace.parsed, Trace.nil]
  · cases h : s.outputFormat <;> decide
  · cases h : s.outputFormat <;> decide

/-- Witness for C6 at a concrete attempt targeting RAML 1.0. -/
theorem handleConvert_render_media_type_spot :
    (handleConvert okLib stContent).2.renderMediaType = some (mimeFor stContent.outputFormat) ∧
    (mimeFor stContent.outputFormat = "application/yaml" ↔
      (stContent.outputFormat = Format.RAML08 ∨ stContent.outputFormat = Format.RAML10)) ∧
    (mimeFor stContent.outputFormat = "application/json" ↔
      (stContent.outputFormat = Format.OAS20 ∨ stContent.outputFormat = Format.OAS30)) :=
  handleConvert_render_media_type okLib stContent ⟨0, []⟩ ⟨1, []⟩
    (by decide) rfl rfl rfl rfl rfl

/-- Claim C5: the first exception thrown during client selection, parsing,
transformation or rendering is caught at the top level (the model of
`handleConvert` is total, so no exception propagates), and the error state
becomes `Conversion error: ` followed by the message of an `Error` value
or the string form of a non-`Error` value; output stays cleared and
loading is reset. -/
theorem handleConvert_exception_caught
    (lib : LibBehavior) (s : AppState) (e : ExnVal)
    (hg : jsTrim s.input ≠ "")
    (he : firstThrow lib s = some e) :
    (handleConvert lib s).1.error = "Conversion error: " ++ e.display ∧
    (handleConvert lib s).1.output = "" ∧
    (handleConvert lib s).1.loading = false := by
  rcases h1 : lib.getClient s.inputFormat with e1 | u1
  · simp only [firstThrow, h1, Option.some.injEq] at he
    subst he
    simp [handleConvert, hg, h1, catchState, convErrMsg]
  · rcases h2 : lib.getClient s.outputFormat with e2 | u2
    · simp only [firstThrow, h1, h2, Option.some.injEq] at he
      subst he
      simp [handleConvert, hg, h1, h2, catchState, convErrMsg]
    · rcases hp : parseStep lib s with ep | pr
      · simp only [firstThrow, h1, h2, hp, Option.some.injEq] at he
        subst he
        simp [handleConvert, hg, h1, h2, hp, catchState, convErrMsg]
      · by_cases hd : pr.results.length > 0
        · simp [firstThrow, h1, h2, hp, hd] at he
        · rcases ht : lib.transform s.outputFormat pr.baseUnit PipelineId.Compatibility with et | tr
          · simp [firstThrow, h1, h2, hp, hd, ht] at he
            subst he
            simp [handleConvert, hg, h1, h2, hp, hd, ht, catchState, convErrMsg]
          · rcases hr : lib.render s.outputFormat tr.baseUnit (mimeFor s.outputFormat) with er | rv
            · simp [firstThrow, h1, h2, hp, hd, ht, hr] at he
              subst he
              simp [handleConvert, hg, h1, h2, hp, hd, ht, hr, catchState, convErrMsg]
            · simp [firstThrow, h1, h2, hp, hd, ht, hr] at he

/-- Witness for C5 at a concrete oracle whose parse call throws. -/
theorem handleConvert_exception_caught_spot :
    (handleConvert throwLib stUrl).1.error =
      "Conversion error: " ++ (ExnVal.errorObj "network unreachable").display ∧
    (handleConvert throwLib stUrl).1.output = "" ∧
    (handleConvert throwLib stUrl).1.loading = false :=
  handleConvert_exception_caught throwLib stUrl (.errorObj "network unreachable")
    (by decide) rfl

/-- Claim C10: in content mode the handler always hands the fixed media
type `application/yaml` to `parseContent`, for every selected input format
and every pasted content; the parse step in content mode is exactly a
`parseContent` call with that constant media type. -/
theorem handleConvert_content_media_type
    (lib : LibBehavior) (s : AppState)
    (hg : jsTrim s.input ≠ "")
    (hm : s.inputMode = .content)
    (h1 : lib.getClient s.inputFormat = .ok ())
    (h2 : lib.getClient s.outputFormat = .ok ()) :
    (handleConvert lib s).2.parseMediaType = some "application/yaml" ∧
    parseStep lib s = lib.parseContent s.inputFormat s.input "application/yaml" := by
  constructor
  · rcases hp : parseStep lib s with ep | pr
    · simp [handleConvert, hg, h1, h2, hp, Trace.parsed, Trace.nil,
        declaredParseMediaType, hm]
    · by_cases hd : pr.results.length > 0
      · simp [handleConvert, hg, h1, h2, hp, hd, Trace.parsed, Trace.nil,
          declaredParseMediaType, hm]
      · rcases ht : lib.transform s.outputFormat pr.baseUnit PipelineId.Compatibility with et | tr
        · simp [handleConvert, hg, h1, h2, hp, hd, ht, Trace.transformed,
            Trace.parsed, Trace.nil, declaredParseMediaType, hm]
        · rcases hr : lib.render s.outputFormat tr.baseUnit (mimeFor s.outputFormat) with er | rv <;>
            simp [handleConvert, hg, h1, h2, hp, hd, ht, hr, Trace.renderedTrace,
              Trace.transformed, Trace.parsed, Trace.nil, declaredParseMediaType, hm]
  · simp [parseStep, hm]

/-- Witness for C10 at a concrete content-mode attempt with an OAS 2.0
input format and pasted JSON-like content. -/
theorem handleConvert_content_media_type_spot :
    (handleConvert okLib stContent).2.parseMediaType = some "application/yaml" ∧
    parseStep okLib stContent =
      okLib.parseContent stContent.inputFormat stContent.input "application/yaml" :=
  handleConvert_content_media_type okLib stContent (by decide) rfl rfl rfl
